import Mathlib

/-!
Shallow embedding of `enn/losses/single_index_with_state.py`.

Arrays are modelled exactly over the rationals: a rank-1 array is a
`List ℚ` (`Vec`), a rank-2 array is a `List (List ℚ)` (`Matrix`).
Haiku network state (`hk.State`) is a two-level string-keyed mapping whose
leaves are arrays; metrics are a string-keyed mapping of scalars.
Fallible code (chex shape assertions, numpy broadcast failures, Python
`KeyError`) is modelled with `Except Err`.  External numeric primitives
with no exact rational counterpart (`jnp.sqrt`, `jax.nn.log_softmax`) are
taken as explicit function parameters of the embedded definitions.
-/

set_option autoImplicit false

namespace Enn

/-- Rank-1 numeric array. -/
abbrev Vec := List ℚ

/-- Rank-2 numeric array (list of rows). -/
abbrev Matrix := List (List ℚ)

/-- Metrics mapping from metric name to scalar value (a Python dict). -/
abbrev Metrics := List (String × ℚ)

/-- Haiku network state: mapping layer-name to a mapping leaf-name to array. -/
abbrev NetState := List (String × List (String × Vec))

/-- Random-number-generator key (`base_legacy.RngKey`), kept abstract as a seed. -/
abbrev Rng := ℕ

/-- Failure conditions surfaced by the embedded code. -/
inductive Err where
  /-- A chex rank/shape/equal-shape assertion failed. -/
  | shapeMismatch
  /-- A Python dict lookup failed (`KeyError`). -/
  | keyError
  /-- The numeric runtime could not broadcast mismatched operand shapes. -/
  | broadcastError
deriving DecidableEq

instance {ε α : Type} [DecidableEq ε] [DecidableEq α] : DecidableEq (Except ε α)
  | .error e1, .error e2 =>
    if h : e1 = e2 then .isTrue (by rw [h]) else .isFalse (fun hc => by cases hc; exact h rfl)
  | .error _, .ok _ => .isFalse (fun hc => by cases hc)
  | .ok _, .error _ => .isFalse (fun hc => by cases hc)
  | .ok a1, .ok a2 =>
    if h : a1 = a2 then .isTrue (by rw [h]) else .isFalse (fun hc => by cases hc; exact h rfl)

/-- The immutable data batch (`base_legacy.Batch`); `x` stays opaque to the
losses (it is only forwarded to `apply`). -/
structure Batch (X : Type) where
  x : X
  y : Matrix
  data_index : Matrix
  weights : Option Matrix

/-- Model apply capability `(params, state, x, index) -> (output, new_state)`;
the raw output is modelled as a plain matrix (see `parse_net_output`). -/
abbrev ApplyFn (P X I : Type) := P → NetState → X → I → Except Err (Matrix × NetState)

/-- `base_legacy.LossOutputWithState`: `(loss, (new_state, metrics))`. -/
abbrev LossOutput := ℚ × (NetState × Metrics)

/-- The single-index loss contract: a loss from one batch of data and one index. -/
abbrev SingleIndexLossFn (P X I : Type) :=
  ApplyFn P X I → P → NetState → Batch X → I → Except Err LossOutput

/-- Epistemic network with state (`base_legacy.EpistemicNetworkWithStateBase`):
the averaging combinator treats `apply` completely opaquely, so its type is a
parameter. -/
structure EpistemicNetwork (A I : Type) where
  apply : A
  indexer : Rng → I

/-- Modelled from the spec: `utils.parse_net_output` (not under `src/`)
normalizes the raw model output into a plain numeric array; the model output
is already a plain array in this embedding, so it acts as the identity. -/
def parse_net_output (net_out : Matrix) : Matrix := net_out

/-- Modelled from the spec: `utils.make_batch_indexer` (not under `src/`) is
the batched form of the indexer capability, deriving `n` index samples
deterministically from the rng key in one batched call. -/
def make_batch_indexer {I : Type} (indexer : Rng → I) (n : ℕ) : Rng → List I :=
  fun key => (List.range n).map (fun j => indexer (key + j))

/-- Mean of a rank-1 array (`jnp.mean` of a vector). -/
def listMean (l : List ℚ) : ℚ := l.sum / (l.length : ℚ)

/-- Mean over every element of a rank-2 array (`jnp.mean` of a matrix). -/
def matMean (m : Matrix) : ℚ :=
  ((m.map (fun r => r.sum)).sum) / (((m.map (fun r => r.length)).sum : ℕ) : ℚ)

/-- Elementwise difference of equal-shaped matrices. -/
def matSub (a b : Matrix) : Matrix := List.zipWith (List.zipWith (fun x y => x - y)) a b

/-- Elementwise product of equal-shaped matrices. -/
def matElemMul (a b : Matrix) : Matrix := List.zipWith (List.zipWith (fun x y => x * y)) a b

/-- Elementwise square (`jnp.square`). -/
def matSquare (a : Matrix) : Matrix := a.map (fun r => r.map (fun x => x * x))

/-- Matrix of ones with the shape of `m` (`jnp.ones_like`). -/
def onesLike (m : Matrix) : Matrix := m.map (fun r => r.map (fun _ => (1 : ℚ)))

/-- Decidable check for `chex.assert_shape(a, (None, 1))`: rank-2 with one column. -/
def assert_shape_rows1 (m : Matrix) : Bool := m.all (fun row => row.length = 1)

/-- Decidable check for `chex.assert_equal_shape([a, b])` on rank-2 arrays. -/
def sameMatShape (a b : Matrix) : Bool :=
  a.length = b.length && (List.zipWith (fun r1 r2 => decide (r1.length = r2.length)) a b).all id

/-- Shape equality of the leaf dictionaries of two state layers. -/
def sameLayerShape : List (String × Vec) → List (String × Vec) → Bool
  | [], [] => true
  | p :: ps, q :: qs => p.1 = q.1 && p.2.length = q.2.length && sameLayerShape ps qs
  | _, _ => false

/-- Structure-and-shape equality of two network states, as enforced by
`jax.tree_multimap(assert_equal_shape, new_state, state)`. -/
def sameStateShape : NetState → NetState → Bool
  | [], [] => true
  | p :: ps, q :: qs => p.1 = q.1 && sameLayerShape p.2 q.2 && sameStateShape ps qs
  | _, _ => false

/-- First-match association-list lookup (Python dict access). -/
def dictLookup {α : Type} (key : String) : List (String × α) → Option α
  | [] => none
  | p :: rest => if p.1 = key then some p.2 else dictLookup key rest

/-- Python dict assignment `m[key] = v`: overwrite in place, or append. -/
def dictSet (m : Metrics) (key : String) (v : ℚ) : Metrics :=
  if m.any (fun p => p.1 = key) then
    m.map (fun p => if p.1 = key then (p.1, v) else p)
  else m ++ [(key, v)]

/-- Pointwise sum of a stack of equal-length vectors (the leaves stacked by
`jax.vmap` along axis 0). -/
def vecSum : List Vec → Vec
  | [] => []
  | [v] => v
  | v :: vs => List.zipWith (fun x y => x + y) v (vecSum vs)

/-- Mean along axis 0 of a stack of equal-length vectors (`jnp.mean(x, axis=0)`
on a vmap-stacked leaf). -/
def vecStackMean (vs : List Vec) : Vec := (vecSum vs).map (fun x => x / (vs.length : ℚ))

/-- Positional sum of two states of identical tree structure; `jax.vmap`
guarantees every per-index state has the same structure, so the keys are
taken from the first operand. -/
def stateAdd (s1 s2 : NetState) : NetState :=
  List.zipWith
    (fun l1 l2 =>
      (l1.1, List.zipWith (fun a b => (a.1, List.zipWith (fun x y => x + y) a.2 b.2)) l1.2 l2.2))
    s1 s2

/-- Leafwise sum of a stack of states of identical structure. -/
def stateSum : List NetState → NetState
  | [] => []
  | [s] => s
  | s :: ss => stateAdd s (stateSum ss)

/-- Leafwise mean along the index axis of a stack of states ( `jax.tree_map`
of `jnp.mean(·, axis=0)` over the vmap-stacked state). -/
def stateStackMean (ss : List NetState) : NetState :=
  (stateSum ss).map (fun l => (l.1, l.2.map (fun a => (a.1, a.2.map (fun x => x / (ss.length : ℚ))))))

/-- Keywise sum of two metric dicts of identical structure (keys from the first). -/
def metricsAdd (m1 m2 : Metrics) : Metrics :=
  List.zipWith (fun a b => (a.1, a.2 + b.2)) m1 m2

/-- Sum of a stack of metric dicts of identical structure. -/
def metricsSum : List Metrics → Metrics
  | [] => []
  | [m] => m
  | m :: ms => metricsAdd m (metricsSum ms)

/-- Keywise mean along the index axis of a stack of metric dicts (`jax.tree_map`
of `jnp.mean(·, axis=0)` over the vmap-stacked metrics). -/
def metricsStackMean (ms : List Metrics) : Metrics :=
  (metricsSum ms).map (fun p => (p.1, p.2 / (ms.length : ℚ)))

/-- Evaluation of one fallible function over a list of inputs; any failure
propagates, as an exception does out of `jax.vmap`. -/
def exceptMapList {α β : Type} (f : α → Except Err β) : List α → Except Err (List β)
  | [] => .ok []
  | a :: rest =>
    match f a with
    | .error e => .error e
    | .ok b =>
      match exceptMapList f rest with
      | .error e => .error e
      | .ok bs => .ok (b :: bs)

/-- Embedding of `average_single_index_loss_with_state`: sample
`num_index_samples` indices from the rng via the batched indexer, evaluate the
single-index loss across them with shared `(apply, params, state, batch)`,
then mean-reduce the loss, the state (with a shape assertion), and the
metrics, adding the `state_counter` diagnostic when the state is non-empty. -/
def average_single_index_loss_with_state {A P D I : Type}
    (single_loss : A → P → NetState → D → I → Except Err LossOutput)
    (num_index_samples : ℕ) :
    EpistemicNetwork A I → P → NetState → D → Rng → Except Err LossOutput :=
  fun enn params state batch key =>
    let idxs := make_batch_indexer enn.indexer num_index_samples key
    match exceptMapList (fun i => single_loss enn.apply params state batch i) idxs with
    | .error e => .error e
    | .ok outs =>
      let mean_loss := listMean (outs.map (fun o => o.1))
      let sts := outs.map (fun o => o.2.1)
      -- `if new_state:` on the vmap-stacked state: non-empty iff the (shared)
      -- per-index state structure is non-empty.
      let stacked_nonempty := match sts with | [] => false | s0 :: _ => !s0.isEmpty
      let avg_state :=
        if stacked_nonempty then
          let ns := stateStackMean sts
          if sameStateShape ns state then Except.ok ns else Except.error Err.shapeMismatch
        else Except.ok ([] : NetState)
      match avg_state with
      | .error e => .error e
      | .ok new_state =>
        let mean_metrics := metricsStackMean (outs.map (fun o => o.2.2))
        -- `if len(new_state) > 0:` state-counter diagnostic.
        match new_state with
        | [] => Except.ok (mean_loss, (([] : NetState), mean_metrics))
        | first_layer :: rest =>
          match dictLookup "counter" first_layer.2 with
          | some counter =>
            Except.ok (mean_loss,
              (first_layer :: rest, dictSet mean_metrics "state_counter" (listMean counter)))
          | none => Except.error Err.keyError

/-- Embedding of `add_data_noise_to_loss_with_state`: perturb the batch with
`noise_fn` once per `(batch, index)` pair, then delegate. -/
def add_data_noise_to_loss_with_state {A P D I O : Type}
    (single_loss : A → P → NetState → D → I → O)
    (noise_fn : D → I → D) : A → P → NetState → D → I → O :=
  fun apply params state batch index =>
    single_loss apply params state (noise_fn batch index) index

/-- Embedding of `L2LossWithState.__call__`. -/
def L2LossWithState.call {P X I : Type}
    (apply : ApplyFn P X I) (params : P) (state : NetState) (batch : Batch X) (index : I) :
    Except Err LossOutput :=
  if !assert_shape_rows1 batch.y then .error Err.shapeMismatch
  else if !assert_shape_rows1 batch.data_index then .error Err.shapeMismatch
  else
    match apply params state batch.x index with
    | .error e => .error e
    | .ok (raw_out, state') =>
      let net_out := parse_net_output raw_out
      if !sameMatShape net_out batch.y then .error Err.shapeMismatch
      else
        let sq_loss := matSquare (matSub (parse_net_output net_out) batch.y)
        let batch_weights :=
          match batch.weights with
          | none => onesLike batch.data_index
          | some w => w
        if !sameMatShape batch_weights sq_loss then .error Err.shapeMismatch
        else .ok (matMean (matElemMul batch_weights sq_loss), (state', []))

/-- Embedding of `xent_loss_with_state_custom_labels`; `logSoftmax` stands for
the external numeric primitive `jax.nn.log_softmax` (applied along axis 1). -/
def xent_loss_with_state_custom_labels {P X I : Type}
    (logSoftmax : Matrix → Matrix) (labeller : Vec → Matrix)
    (apply : ApplyFn P X I) (params : P) (state : NetState) (batch : Batch X) (index : I) :
    Except Err LossOutput :=
  if !assert_shape_rows1 batch.y then .error Err.shapeMismatch
  else
    match apply params state batch.x index with
    | .error e => .error e
    | .ok (raw_out, state') =>
      let logits := parse_net_output raw_out
      let labels := labeller (batch.y.map (fun r => r.headD 0))
      -- -sum(labels * log_softmax(logits), axis=1, keepdims=True)
      let softmax_xent :=
        List.zipWith (fun lrow srow => [-(List.zipWith (fun a b => a * b) lrow srow).sum])
          labels (logSoftmax logits)
      let batch_weights :=
        match batch.weights with
        | none => onesLike batch.y
        | some w => w
      if !sameMatShape batch_weights softmax_xent then .error Err.shapeMismatch
      else
        let loss := matMean (matElemMul batch_weights softmax_xent)
        .ok (loss, (state', [("loss", loss)]))

/-- One-hot labelling `jax.nn.one_hot(x, num_classes)` along a label column. -/
def one_hot (num_classes : ℕ) (xs : Vec) : Matrix :=
  xs.map (fun v => (List.range num_classes).map (fun j => if v = (j : ℚ) then (1 : ℚ) else 0))

/-- Embedding of `XentLossWithState`: the one-hot instantiation of the
custom-labels cross-entropy factory. -/
def XentLossWithState.call {P X I : Type} (logSoftmax : Matrix → Matrix) (num_classes : ℕ) :
    ApplyFn P X I → P → NetState → Batch X → I → Except Err LossOutput :=
  xent_loss_with_state_custom_labels logSoftmax (one_hot num_classes)

/-- Index of the first maximal element (`jnp.argmax` along a row). -/
def argmaxAux : ℕ → ℕ → ℚ → Vec → ℕ
  | _, bi, _, [] => bi
  | i, bi, bv, x :: rest =>
    if bv < x then argmaxAux (i + 1) i x rest else argmaxAux (i + 1) bi bv rest

/-- Index of the first maximal element of a vector. -/
def argmaxIdx : Vec → ℕ
  | [] => 0
  | x :: rest => argmaxAux 1 0 x rest

/-- Embedding of `AccuracyErrorLossWithState.single_loss` (the method that
holds the accuracy-error computation; `num_classes` is an unused field). -/
def AccuracyErrorLossWithState.single_loss {P X I : Type} (num_classes : ℕ)
    (apply : ApplyFn P X I) (params : P) (state : NetState) (batch : Batch X) (index : I) :
    Except Err LossOutput :=
  if !assert_shape_rows1 batch.y then .error Err.shapeMismatch
  else
    match apply params state batch.x index with
    | .error e => .error e
    | .ok (raw_out, state') =>
      let logits := parse_net_output raw_out
      let preds := logits.map argmaxIdx
      let correct :=
        List.zipWith (fun (p : ℕ) (row : Vec) => if (p : ℚ) = row.headD 0 then (1 : ℚ) else 0)
          preds batch.y
      let accuracy := listMean correct
      .ok (1 - accuracy, (state', [("accuracy", accuracy)]))

/-- The protocol base `SingleIndexLossFnWithStateBase.__call__` body holds only
a docstring, so invoking it returns Python `None`: modelled as `Option.none`. -/
def SingleIndexLossFnWithStateBase.call {P X I : Type}
    (apply : ApplyFn P X I) (params : P) (state : NetState) (batch : Batch X) (index : I) :
    Option LossOutput :=
  none

/-- `AccuracyErrorLossWithState` does not override `__call__`, so invoking an
instance through the single-index contract dispatches to the inherited
protocol stub and yields `None`. -/
def AccuracyErrorLossWithState.call {P X I : Type} (num_classes : ℕ)
    (apply : ApplyFn P X I) (params : P) (state : NetState) (batch : Batch X) (index : I) :
    Option LossOutput :=
  SingleIndexLossFnWithStateBase.call apply params state batch index

/-- Python truthiness of the optional `temperature` field: `None` and `0.0`
are falsy. -/
def pyTruthyQ : Option ℚ → Bool
  | none => false
  | some t => decide (t ≠ 0)

/-- Python truthiness of the optional `input_dim` field: `None` and `0` are falsy. -/
def pyTruthyZ : Option ℤ → Bool
  | none => false
  | some d => decide (d ≠ 0)

/-- Embedding of `ElboLossWithState.__call__`; `sqrtFn` stands for the external
numeric primitive `jnp.sqrt`.  The likelihood and KL terms are rank-1 arrays
(scalars are length-1), matching the equal-shape cross-check. -/
def ElboLossWithState.call {P X I : Type}
    (sqrtFn : ℚ → ℚ)
    (log_likelihood_fn : Matrix → Batch X → Vec)
    (model_prior_kl_fn : Matrix → P → I → Vec)
    (temperature : Option ℚ) (input_dim : Option ℤ)
    (apply : ApplyFn P X I) (params : P) (state : NetState) (batch : Batch X) (index : I) :
    Except Err (Vec × (NetState × Metrics)) :=
  match apply params state batch.x index with
  | .error e => .error e
  | .ok (out, state') =>
    let log_likelihood := log_likelihood_fn out batch
    let model_prior_kl := model_prior_kl_fn out params index
    if model_prior_kl.length ≠ log_likelihood.length then .error Err.shapeMismatch
    else
      -- `if self.temperature and self.input_dim:` (Python truthiness)
      let model_prior_kl :=
        if pyTruthyQ temperature && pyTruthyZ input_dim then
          model_prior_kl.map
            (fun v => v * (sqrtFn (temperature.getD 0) * ((input_dim.getD 0 : ℤ) : ℚ)))
        else model_prior_kl
      -- shapes are equal here by the preceding assertion
      .ok (List.zipWith (fun a b => a - b) model_prior_kl log_likelihood, (state', []))

/-- Numpy-style subtraction of rank-1 arrays with broadcasting: equal lengths
subtract pointwise, a length-1 operand broadcasts, anything else fails. -/
def jnpSub (a b : Vec) : Except Err Vec :=
  if a.length = b.length then .ok (List.zipWith (fun x y => x - y) a b)
  else if a.length = 1 then .ok (b.map (fun y => a.headD 0 - y))
  else if b.length = 1 then .ok (a.map (fun x => x - b.headD 0))
  else .error Err.broadcastError

/-- Embedding of `VaeLossWithState.__call__`: no shape cross-check before
combining the KL and log-likelihood terms. -/
def VaeLossWithState.call {P X I : Type}
    (log_likelihood_fn : Matrix → Batch X → Vec)
    (latent_kl_fn : Matrix → Vec)
    (apply : ApplyFn P X I) (params : P) (state : NetState) (batch : Batch X) (index : I) :
    Except Err (Vec × (NetState × Metrics)) :=
  match apply params state batch.x index with
  | .error e => .error e
  | .ok (raw_out, state') =>
    let kl_term := latent_kl_fn raw_out
    let log_likelihood := log_likelihood_fn raw_out batch
    match jnpSub kl_term log_likelihood with
    | .error e => .error e
    | .ok loss => .ok (loss, (state', []))

/-! Concrete instantiations used to exercise the definitions on explicit
inputs (the model, the external primitives, and small batches). -/

/-- A single-index loss policy that returns the index value as the loss, with
empty state and metrics. -/
def exLossOfIndex : Unit → Unit → NetState → Unit → ℕ → Except Err LossOutput :=
  fun _ _ _ _ i => .ok ((i : ℚ), ([], []))

/-- A single-index loss policy with a constant non-empty state carrying a
`counter` leaf. -/
def exLossCounterState : Unit → Unit → NetState → Unit → ℕ → Except Err LossOutput :=
  fun _ _ _ _ _ => .ok (2, ([("layer", [("counter", [4])])], []))

/-- A single-index loss policy whose returned state records the index in its
`counter` leaf. -/
def exLossIndexState : Unit → Unit → NetState → Unit → ℕ → Except Err LossOutput :=
  fun _ _ _ _ i => .ok (0, ([("layer", [("counter", [(i : ℚ)])])], []))

/-- A single-index loss policy with empty state and a metrics entry. -/
def exLossEmptyState : Unit → Unit → NetState → Unit → ℕ → Except Err LossOutput :=
  fun _ _ _ _ _ => .ok (3, ([], [("loss", 3)]))

/-- An epistemic network whose indexer returns the rng seed itself. -/
def exEnn : EpistemicNetwork Unit ℕ := ⟨(), fun r => r⟩

/-- A network state with one layer holding a `counter` leaf of value 7. -/
def exState7 : NetState := [("layer", [("counter", [7])])]

/-- A model apply stub returning two-class logits for two rows. -/
def exApplyLogits : ApplyFn Unit Unit ℕ := fun _ s _ _ => .ok ([[1, 0], [1, 0]], s)

/-- A model apply stub returning a rows-by-one output for two rows. -/
def exApplyR2 : ApplyFn Unit Unit ℕ := fun _ s _ _ => .ok ([[2], [3]], s)

/-- A model apply stub returning an empty output. -/
def exApplyEmpty : ApplyFn Unit Unit ℕ := fun _ s _ _ => .ok ([], s)

/-- A two-row classification batch with labels 0 and 1. -/
def exBatch2 : Batch Unit := ⟨(), [[0], [1]], [[0], [1]], none⟩

/-- A one-row batch. -/
def exBatch1 : Batch Unit := ⟨(), [[0]], [[0]], none⟩

/-- A batch whose target has two columns (rows-by-2 instead of rows-by-1). -/
def exBatchBadY : Batch Unit := ⟨(), [[1, 2]], [[0]], none⟩

/-- A batch whose target is valid but whose `data_index` has two columns. -/
def exBatchBadDI : Batch Unit := ⟨(), [[1]], [[1, 2]], none⟩

/-- A stand-in instantiation for the external `jax.nn.log_softmax` primitive. -/
def exLogSoftmax : Matrix → Matrix := fun m => m

/-- A two-class one-hot labeller. -/
def exLabeller : Vec → Matrix := one_hot 2

/-- A constant length-1 latent-KL function. -/
def exKl1 : Matrix → Vec := fun _ => [5]

/-- A constant length-3 log-likelihood function. -/
def exLl3 : Matrix → Batch Unit → Vec := fun _ _ => [1, 2, 3]

/-- A constant length-1 log-likelihood function returning zero. -/
def exLl0 : Matrix → Batch Unit → Vec := fun _ _ => [0]

/-- A constant length-1 model-prior-KL function returning one. -/
def exKlConst1 : Matrix → Unit → ℕ → Vec := fun _ _ _ => [1]

/-- A constant length-1 model-prior-KL function returning five. -/
def exKlU : Matrix → Unit → ℕ → Vec := fun _ _ _ => [5]

/-- A constant length-1 log-likelihood function returning five. -/
def exLl5 : Matrix → Batch Unit → Vec := fun _ _ => [5]

/-! Helper lemmas shared by the claim theorems. -/

theorem exceptMapList_eq_ok {α β : Type} (f : α → Except Err β) :
    ∀ (l : List α) (outs : List β), l.map f = outs.map Except.ok →
      exceptMapList f l = Except.ok outs := by
  intro l
  induction l with
  | nil =>
    intro outs h
    cases outs with
    | nil => rfl
    | cons o os => simp at h
  | cons a rest ih =>
    intro outs h
    cases outs with
    | nil => simp at h
    | cons o os =>
      simp only [List.map] at h
      obtain ⟨h1, h2⟩ := List.cons.inj h
      simp [exceptMapList, h1, ih os h2]

theorem listMean_single (x : ℚ) : listMean [x] = x := by
  simp [listMean]

theorem metricsStackMean_single (m : Metrics) : metricsStackMean [m] = m := by
  simp only [metricsStackMean, metricsSum]
  induction m with
  | nil => rfl
  | cons p rest ih => simp_all

theorem onesLike_rows1 (a : Matrix) (ha : assert_shape_rows1 a = true) :
    onesLike a = List.replicate a.length [(1 : ℚ)] := by
  induction a with
  | nil => rfl
  | cons r rest ih =>
    simp only [assert_shape_rows1, List.all_cons, Bool.and_eq_true, decide_eq_true_eq] at ha
    obtain ⟨hr, hrest⟩ := ha
    obtain ⟨v, rfl⟩ := List.length_eq_one.mp hr
    have ih' := ih hrest
    simp only [onesLike] at ih' ⊢
    simp only [List.map, List.length_cons, List.replicate_succ]
    exact congrArg₂ List.cons rfl ih'

/-! Claim theorems. -/

/-- C9: wrapping any single-index loss policy with the data-noise decorator
using the identity noise function yields a policy extensionally equal to the
unwrapped policy: same outputs and same failure conditions on every input. -/
theorem add_data_noise_identity_passthrough {A P D I O : Type}
    (single_loss : A → P → NetState → D → I → O) :
    add_data_noise_to_loss_with_state single_loss (fun batch _ => batch) = single_loss := rfl

/-- C7: on any batch whose target `y` is not rows-by-one, both the L2
regression policy and the cross-entropy policy fail with a `ShapeMismatch`
condition, whatever the model apply function does (the failure is decided
before `apply` is consulted and propagates unchanged). -/
theorem bad_target_shape_fails_l2_and_xent {P X I : Type}
    (logSoftmax : Matrix → Matrix) (labeller : Vec → Matrix)
    (apply : ApplyFn P X I) (params : P) (state : NetState) (batch : Batch X) (index : I)
    (hy : assert_shape_rows1 batch.y = false) :
    L2LossWithState.call apply params state batch index = .error Err.shapeMismatch
    ∧ xent_loss_with_state_custom_labels logSoftmax labeller apply params state batch index
        = .error Err.shapeMismatch := by
  constructor <;> simp [L2LossWithState.call, xent_loss_with_state_custom_labels, hy]

/-- Witness for C7 at a concrete rows-by-2 target. -/
theorem bad_target_shape_fails_l2_and_xent_witness :
    assert_shape_rows1 exBatchBadY.y = false
    ∧ (L2LossWithState.call exApplyR2 () [] exBatchBadY 0 = .error Err.shapeMismatch
      ∧ xent_loss_with_state_custom_labels exLogSoftmax exLabeller exApplyR2 () [] exBatchBadY 0
          = .error Err.shapeMismatch) :=
  ⟨by decide,
    bad_target_shape_fails_l2_and_xent exLogSoftmax exLabeller exApplyR2 () [] exBatchBadY 0
      (by decide)⟩

/-- C10: the L2 policy additionally requires `batch.data_index` to be
rows-by-one: when it is not, evaluation fails with a `ShapeMismatch` condition
for every model apply function (so before the model is invoked), even when the
target shape is valid. -/
theorem l2_requires_data_index_rows1 {P X I : Type}
    (apply : ApplyFn P X I) (params : P) (state : NetState) (batch : Batch X) (index : I)
    (hy : assert_shape_rows1 batch.y = true)
    (hdi : assert_shape_rows1 batch.data_index = false) :
    L2LossWithState.call apply params state batch index = .error Err.shapeMismatch := by
  simp [L2LossWithState.call, hy, hdi]

/-- Witness for C10 at a concrete batch with valid target and a rows-by-2
`data_index`. -/
theorem l2_requires_data_index_rows1_witness :
    (assert_shape_rows1 exBatchBadDI.y = true ∧ assert_shape_rows1 exBatchBadDI.data_index = false)
    ∧ L2LossWithState.call exApplyR2 () [] exBatchBadDI 0 = .error Err.shapeMismatch :=
  ⟨⟨by decide, by decide⟩,
    l2_requires_data_index_rows1 exApplyR2 () [] exBatchBadDI 0 (by decide) (by decide)⟩

/-- C8: on a valid batch (rows-by-one target and data index sharing a row
count), the L2 and cross-entropy losses with `weights = None` equal the same
losses with an explicit all-ones weight vector of the matching rows-by-one
shape, for every model apply function (full output equality, including
failure behaviour). -/
theorem weights_none_eq_explicit_ones {P X I : Type}
    (logSoftmax : Matrix → Matrix) (labeller : Vec → Matrix)
    (apply : ApplyFn P X I) (params : P) (state : NetState) (batch : Batch X) (index : I)
    (hy : assert_shape_rows1 batch.y = true)
    (hdi : assert_shape_rows1 batch.data_index = true)
    (hlen : batch.data_index.length = batch.y.length) :
    L2LossWithState.call apply params state { batch with weights := none } index
      = L2LossWithState.call apply params state
          { batch with weights := some (onesLike batch.y) } index
    ∧ xent_loss_with_state_custom_labels logSoftmax labeller apply params state
          { batch with weights := none } index
      = xent_loss_with_state_custom_labels logSoftmax labeller apply params state
          { batch with weights := some (onesLike batch.y) } index := by
  have hones : onesLike batch.data_index = onesLike batch.y := by
    rw [onesLike_rows1 _ hdi, onesLike_rows1 _ hy, hlen]
  constructor
  · have h1 : L2LossWithState.call apply params state { batch with weights := none } index
        = L2LossWithState.call apply params state
            { batch with weights := some (onesLike batch.data_index) } index := rfl
    rw [hones] at h1
    exact h1
  · rfl

/-- Witness for C8 at a concrete two-row batch and model. -/
theorem weights_none_eq_explicit_ones_witness :
    L2LossWithState.call exApplyR2 () [] { exBatch2 with weights := none } 0
      = L2LossWithState.call exApplyR2 () [] { exBatch2 with weights := some (onesLike exBatch2.y) } 0
    ∧ xent_loss_with_state_custom_labels exLogSoftmax exLabeller exApplyR2 () []
          { exBatch2 with weights := none } 0
      = xent_loss_with_state_custom_labels exLogSoftmax exLabeller exApplyR2 () []
          { exBatch2 with weights := some (onesLike exBatch2.y) } 0 :=
  weights_none_eq_explicit_ones exLogSoftmax exLabeller exApplyR2 () [] exBatch2 0
    (by decide) (by decide) (by decide)

/-- C5 (code bug): invoking the accuracy-error policy through the contract's
evaluation operation dispatches to the inherited protocol stub and yields
`None` instead of the accuracy-error output, because the computation was
defined under the method name `single_loss` rather than `__call__`; the
`single_loss` method itself does return `1 - accuracy` of the per-row argmax
prediction together with the new state and an `accuracy` metric. -/
theorem accuracy_error_contract_returns_none :
    AccuracyErrorLossWithState.call 2 exApplyLogits () [] exBatch2 0 = none
    ∧ AccuracyErrorLossWithState.single_loss 2 exApplyLogits () [] exBatch2 0
        = .ok (1 - 1/2, ([], [("accuracy", 1/2)])) := by
  constructor
  · rfl
  · norm_num [AccuracyErrorLossWithState.single_loss, exApplyLogits, exBatch2, parse_net_output,
      argmaxIdx, argmaxAux, listMean, assert_shape_rows1]

/-- Counterexample to C3: the VAE policy combines a KL term of shape `(1,)`
with a log-likelihood of shape `(3,)` without any equal-shape validation: the
mismatched shapes are silently broadcast and a loss is returned instead of a
`ShapeMismatch` failure. -/
theorem vae_silent_broadcast_cex :
    (exKl1 []).length ≠ (exLl3 [] exBatch1).length
    ∧ VaeLossWithState.call exLl3 exKl1 exApplyEmpty () [] exBatch1 0
        = .ok ([4, 3, 2], ([], [])) := by
  constructor
  · decide
  · norm_num [VaeLossWithState.call, exLl3, exKl1, exApplyEmpty, exBatch1, jnpSub]

/-- C3 as amended: only the ELBO policy validates that the log-likelihood and
KL terms have equal shapes, failing with a `ShapeMismatch` condition when they
differ; the VAE policy performs no such validation and silently broadcasts a
length-1 term against a mismatched log-likelihood. -/
theorem elbo_validates_shapes_vae_broadcasts :
    (∀ {P X I : Type} (sqrtFn : ℚ → ℚ) (llfn : Matrix → Batch X → Vec)
        (klfn : Matrix → P → I → Vec) (T : Option ℚ) (D : Option ℤ)
        (apply : ApplyFn P X I) (params : P) (state : NetState) (batch : Batch X) (index : I)
        (out : Matrix) (st' : NetState),
        apply params state batch.x index = .ok (out, st') →
        (klfn out params index).length ≠ (llfn out batch).length →
        ElboLossWithState.call sqrtFn llfn klfn T D apply params state batch index
          = .error Err.shapeMismatch)
    ∧ (∀ {P X I : Type} (llfn : Matrix → Batch X → Vec) (klfn : Matrix → Vec)
        (apply : ApplyFn P X I) (params : P) (state : NetState) (batch : Batch X) (index : I)
        (out : Matrix) (st' : NetState),
        apply params state batch.x index = .ok (out, st') →
        (klfn out).length = 1 → (llfn out batch).length ≠ 1 →
        VaeLossWithState.call llfn klfn apply params state batch index
          = .ok ((llfn out batch).map (fun v => (klfn out).headD 0 - v), (st', []))) := by
  constructor
  · intro P X I sqrtFn llfn klfn T D apply params state batch index out st' happ hne
    simp [ElboLossWithState.call, happ, hne]
  · intro P X I llfn klfn apply params state batch index out st' happ h1 hne
    have hne' : ¬ (klfn out).length = (llfn out batch).length := by
      rw [h1]
      exact fun h => hne h.symm
    simp only [VaeLossWithState.call, happ, jnpSub]
    rw [if_neg hne', if_pos h1]

/-- Witness for the amended C3 at concrete mismatched shapes. -/
theorem elbo_validates_shapes_vae_broadcasts_witness :
    ElboLossWithState.call (fun x => x) exLl3 exKlU none none exApplyEmpty () [] exBatch1 0
        = .error Err.shapeMismatch
    ∧ VaeLossWithState.call exLl3 exKl1 exApplyEmpty () [] exBatch1 0
        = .ok ((exLl3 [] exBatch1).map (fun v => (exKl1 []).headD 0 - v), ([], [])) :=
  ⟨elbo_validates_shapes_vae_broadcasts.1 (fun x => x) exLl3 exKlU none none
      exApplyEmpty () [] exBatch1 0 [] [] rfl (by decide),
    elbo_validates_shapes_vae_broadcasts.2 exLl3 exKl1
      exApplyEmpty () [] exBatch1 0 [] [] rfl (by decide) (by decide)⟩

/-- Counterexample to C4: with `temperature = 1.0` and `input_dim = 0` both
set, a constant KL of `k = 1`, and zero log-likelihood, the KL term entering
the returned loss is the unscaled `1`, whereas the claim's formula
`k * sqrt(temperature) * input_dim` gives `0`: Python truthiness skips the
scaling whenever either field is zero, not only when it is unset. -/
theorem elbo_zero_input_dim_cex :
    ElboLossWithState.call (fun x => x) exLl0 exKlConst1 (some 1) (some 0)
        exApplyEmpty () [] exBatch1 0
      = .ok ([1], ([], []))
    ∧ (1 : ℚ) * ((fun (x : ℚ) => x) 1) * ((0 : ℤ) : ℚ) ≠ (1 : ℚ) := by
  constructor
  · norm_num [ElboLossWithState.call, exLl0, exKlConst1, exApplyEmpty, exBatch1,
      pyTruthyQ, pyTruthyZ]
  · norm_num

/-- C4 as amended: for the ELBO policy with a constant KL `k`, whenever both
`temperature` and `input_dim` are set to truthy (nonzero) values the KL term
entering the returned loss is `k * sqrt(temperature) * input_dim`; whenever
either is unset or zero, the KL term is the unscaled `k`. -/
theorem elbo_kl_scaling {P X I : Type}
    (sqrtFn : ℚ → ℚ) (k l0 : ℚ) (llfn : Matrix → Batch X → Vec)
    (T : Option ℚ) (D : Option ℤ)
    (apply : ApplyFn P X I) (params : P) (state : NetState) (batch : Batch X) (index : I)
    (out : Matrix) (st' : NetState)
    (happ : apply params state batch.x index = .ok (out, st'))
    (hll : llfn out batch = [l0]) :
    ElboLossWithState.call sqrtFn llfn (fun _ _ _ => [k]) T D apply params state batch index
      = .ok ([(if pyTruthyQ T && pyTruthyZ D then
                k * (sqrtFn (T.getD 0) * ((D.getD 0 : ℤ) : ℚ))
              else k) - l0], (st', [])) := by
  simp only [ElboLossWithState.call, happ, hll]
  cases hb : pyTruthyQ T && pyTruthyZ D <;> simp [hb]

/-- Witness for the amended C4 with `temperature = 9`, `input_dim = 2`,
`k = 4` and log-likelihood `5`. -/
theorem elbo_kl_scaling_witness :
    ElboLossWithState.call (fun x => x) exLl5 (fun _ _ _ => [(4 : ℚ)]) (some 9) (some 2)
        exApplyEmpty () [] exBatch1 0
      = .ok ([(if pyTruthyQ (some 9) && pyTruthyZ (some 2) then
                (4 : ℚ) * ((fun (x : ℚ) => x) ((some (9 : ℚ)).getD 0) * (((some (2 : ℤ)).getD 0 : ℤ) : ℚ))
              else 4) - 5], ([], [])) :=
  elbo_kl_scaling (fun x => x) 4 5 exLl5 (some 9) (some 2) exApplyEmpty () [] exBatch1 0 [] []
    rfl rfl

/-- C1: whenever the index-averaging combinator built with `num_index_samples
= k` returns a loss, that loss equals the arithmetic mean of the `k` losses
obtained by evaluating the single-index policy independently on each of the
`k` indices the batched indexer samples from the rng, with the same
`(apply, params, state, batch)`. -/
theorem avg_loss_is_mean {A P D I : Type}
    (single_loss : A → P → NetState → D → I → Except Err LossOutput)
    (k : ℕ) (enn : EpistemicNetwork A I) (params : P) (state : NetState) (batch : D) (key : Rng)
    (outs : List LossOutput) (res : LossOutput)
    (hk : 1 ≤ k)
    (houts : (make_batch_indexer enn.indexer k key).map
        (fun i => single_loss enn.apply params state batch i) = outs.map Except.ok)
    (hres : average_single_index_loss_with_state single_loss k enn params state batch key
        = .ok res) :
    res.1 = listMean (outs.map (fun o => o.1)) := by
  have hmap := exceptMapList_eq_ok _ _ _ houts
  unfold average_single_index_loss_with_state at hres
  dsimp only at hres
  rw [hmap] at hres
  dsimp only at hres
  repeat' split at hres
  all_goals first
    | (cases hres; rfl)
    | cases hres

/-- Witness for C1 with two sampled indices and per-index losses 0 and 1. -/
theorem avg_loss_is_mean_witness :
    (((1 : ℚ)/2, (([] : NetState), ([] : Metrics))) : LossOutput).1
      = listMean (([(((0 : ℚ), (([] : NetState), ([] : Metrics))) : LossOutput),
          (1, ([], []))]).map (fun o => o.1)) :=
  avg_loss_is_mean exLossOfIndex 2 exEnn () [] () 0
    [(0, ([], [])), (1, ([], []))] ((1 : ℚ)/2, ([], []))
    (by decide)
    (by norm_num [make_batch_indexer, exLossOfIndex, exEnn, List.range_succ])
    (by norm_num [average_single_index_loss_with_state, make_batch_indexer, exceptMapList,
      exLossOfIndex, exEnn, listMean, metricsStackMean, metricsSum, metricsAdd,
      List.range_succ])

/-- Counterexample to C2: with one index sample and a policy whose returned
state is non-empty, the combinator's metrics gain an extra `state_counter`
entry, so the combinator's output is not exactly the policy's own output for
the sampled index. -/
theorem avg_single_sample_not_identity_cex :
    average_single_index_loss_with_state exLossCounterState 1 exEnn () exState7 () 0
      ≠ exLossCounterState exEnn.apply () exState7 () (exEnn.indexer 0) := by
  norm_num [average_single_index_loss_with_state, make_batch_indexer, exceptMapList,
    exLossCounterState, exEnn, exState7, listMean, metricsStackMean, metricsSum,
    stateStackMean, stateSum, dictLookup, dictSet, sameStateShape, sameLayerShape,
    metricsAdd, List.range_succ]

/-- C2 as amended: with `num_index_samples = 1` and a policy whose returned
state is empty, the combinator returns exactly the policy's own output (loss,
state and metrics) for the single index sampled from the rng; when the
returned state is non-empty the metrics additionally gain a `state_counter`
entry. -/
theorem avg_single_sample_identity_empty_state {A P D I : Type}
    (single_loss : A → P → NetState → D → I → Except Err LossOutput)
    (enn : EpistemicNetwork A I) (params : P) (state : NetState) (batch : D) (key : Rng)
    (out : LossOutput)
    (hout : single_loss enn.apply params state batch (enn.indexer key) = .ok out)
    (hempty : out.2.1 = []) :
    average_single_index_loss_with_state single_loss 1 enn params state batch key = .ok out := by
  obtain ⟨l, st, m⟩ := out
  dsimp only at hempty
  subst hempty
  have hidx : make_batch_indexer enn.indexer 1 key = [enn.indexer key] := by
    have h1 : List.range 1 = [0] := by decide
    simp [make_batch_indexer, h1]
  unfold average_single_index_loss_with_state
  dsimp only
  rw [hidx]
  simp only [exceptMapList, hout]
  simp [listMean_single, metricsStackMean_single]

/-- Witness for the amended C2 with an empty-state policy. -/
theorem avg_single_sample_identity_empty_state_witness :
    average_single_index_loss_with_state exLossEmptyState 1 exEnn () [] () 0
      = .ok (3, ([], [("loss", 3)])) :=
  avg_single_sample_identity_empty_state exLossEmptyState exEnn () [] () 0
    (3, ([], [("loss", 3)])) rfl rfl

/-- C6: for every policy whose per-index states are non-empty, whenever the
index-averaging combinator returns, its state is the leafwise arithmetic mean
over the index axis of the per-index new states and has the same
shape/structure as the input state; and when the averaged state's shape
differs from the input state's, the combinator fails with a `ShapeMismatch`
condition. -/
theorem avg_state_mean_and_shape {A P D I : Type}
    (single_loss : A → P → NetState → D → I → Except Err LossOutput)
    (k : ℕ) (enn : EpistemicNetwork A I) (params : P) (state : NetState) (batch : D) (key : Rng)
    (outs : List LossOutput) (o0 : LossOutput)
    (hk : 1 ≤ k)
    (houts : (make_batch_indexer enn.indexer k key).map
        (fun i => single_loss enn.apply params state batch i) = outs.map Except.ok)
    (hhead : outs.head? = some o0)
    (hne : o0.2.1 ≠ []) :
    (∀ res, average_single_index_loss_with_state single_loss k enn params state batch key
          = .ok res →
        res.2.1 = stateStackMean (outs.map (fun o => o.2.1))
        ∧ sameStateShape res.2.1 state = true)
    ∧ (sameStateShape (stateStackMean (outs.map (fun o => o.2.1))) state = false →
        average_single_index_loss_with_state single_loss k enn params state batch key
          = .error Err.shapeMismatch) := by
  have hmap := exceptMapList_eq_ok _ _ _ houts
  cases outs with
  | nil => simp at hhead
  | cons o1 rest =>
  obtain rfl : o1 = o0 := by simpa using hhead
  obtain ⟨sh, stl, hso⟩ := List.exists_cons_of_ne_nil hne
  have hie : o1.2.1.isEmpty = false := by rw [hso]; rfl
  constructor
  · intro res hres
    unfold average_single_index_loss_with_state at hres
    dsimp only at hres
    rw [hmap] at hres
    dsimp only [List.map] at hres
    rw [hie] at hres
    simp only [Bool.not_false] at hres
    repeat' split at hres
    · cases hres
    · rename_i heq1
      cases hres
      rw [if_pos trivial] at heq1
      split at heq1
      · rename_i hC
        injection heq1 with hns
        constructor
        · dsimp only [List.map]
          exact hns.symm
        · dsimp only
          exact hns ▸ hC
      · cases heq1
    · rename_i avg ns fl rs heq1 x cnt heq2
      cases hres
      rw [if_pos trivial] at heq1
      split at heq1
      · rename_i hC
        injection heq1 with hns
        constructor
        · dsimp only [List.map]
          exact hns.symm
        · dsimp only
          exact hns ▸ hC
      · cases heq1
    · cases hres
  · intro hfalse
    simp only [List.map] at hfalse
    unfold average_single_index_loss_with_state
    dsimp only
    rw [hmap]
    dsimp only [List.map]
    rw [hie]
    simp only [Bool.not_false, eq_self_iff_true]
    rw [if_pos trivial]
    rw [if_neg (by simp [hfalse])]

/-- Witness for C6 with two index samples whose `counter` leaves 0 and 1
average to one half, preserving the shape of the input state. -/
theorem avg_state_mean_and_shape_witness :
    ((((0 : ℚ), (([("layer", [("counter", [(1 : ℚ)/2])])] : NetState),
        ([("state_counter", (1 : ℚ)/2)] : Metrics)))) : LossOutput).2.1
      = stateStackMean (([((0 : ℚ), (([("layer", [("counter", [0])])] : NetState),
            ([] : Metrics))), (0, ([("layer", [("counter", [1])])], []))] : List LossOutput).map
          (fun o => o.2.1))
    ∧ sameStateShape
        ((((0 : ℚ), (([("layer", [("counter", [(1 : ℚ)/2])])] : NetState),
          ([("state_counter", (1 : ℚ)/2)] : Metrics)))) : LossOutput).2.1 exState7 = true :=
  (avg_state_mean_and_shape exLossIndexState 2 exEnn () exState7 () 0
      [(0, ([("layer", [("counter", [0])])], [])), (0, ([("layer", [("counter", [1])])], []))]
      (0, ([("layer", [("counter", [0])])], []))
      (by decide)
      (by norm_num [make_batch_indexer, exLossIndexState, exEnn, List.range_succ])
      rfl
      (by simp)).1
    (0, ([("layer", [("counter", [(1 : ℚ)/2])])], [("state_counter", (1 : ℚ)/2)]))
    (by norm_num [average_single_index_loss_with_state, make_batch_indexer, exceptMapList,
      exLossIndexState, exEnn, exState7, listMean, metricsStackMean, metricsSum,
      stateStackMean, stateSum, stateAdd, vecSum, dictLookup, dictSet, sameStateShape,
      sameLayerShape, metricsAdd, List.range_succ])

end Enn
